import Mathlib

/-!
Verification of the adaptive decision-and-verification loop of the
ai-job-application-agent repository: page fingerprinting, learning memory,
stuck detection, the decision policy, the state-diff validator and the
memory persistence layer.  Python dicts keyed by strings are modelled as
association lists, timestamps as integers counting seconds, file contents
as `Option (Option α)` (`none` = file missing, `some none` = unparseable,
`some (some m)` = parsed value `m`).
-/

namespace JobAgent

/-- Python `l[-n:]`: the last `n` elements of a list (whole list when shorter). -/
def lastN (n : Nat) (l : List α) : List α := l.drop (l.length - n)

/-- Python truthiness of an optional string (`None` and `""` are falsy). -/
def truthyStr : Option String → Bool
  | none => false
  | some s => !s.data.isEmpty

/-- Python `s[:n]`: the first `n` characters of a string. -/
def strTake (s : String) (n : Nat) : String := String.mk (s.data.take n)

/-- ASCII lower-casing of one character (Python `str.lower` on the ASCII
texts involved here). -/
def lowerChar (c : Char) : Char :=
  if 65 ≤ c.toNat ∧ c.toNat ≤ 90 then Char.ofNat (c.toNat + 32) else c

/-- Python `s.lower()` for ASCII strings. -/
def asciiLower (s : String) : String := String.mk (s.data.map lowerChar)

/-- Does the second character list start with the first? -/
def startsWith : List Char → List Char → Bool
  | [], _ => true
  | _ :: _, [] => false
  | p :: ps, c :: cs => p = c && startsWith ps cs

def strInGo (pat : List Char) : List Char → Bool
  | [] => startsWith pat []
  | c :: cs => startsWith pat (c :: cs) || strInGo pat cs

/-- Python `pat in s` on strings: substring containment (the empty pattern
is contained in everything). -/
def strIn (pat s : String) : Bool := strInGo pat.data s.data

/-- Lexicographic code-point comparison of character lists; Python's `<=`
on strings. -/
def charListLe : List Char → List Char → Bool
  | [], _ => true
  | _ :: _, [] => false
  | a :: as, b :: bs =>
      if a.toNat < b.toNat then true
      else if b.toNat < a.toNat then false
      else charListLe as bs

/-- Python `a <= b` on strings (code-point lexicographic). -/
def pyStrLe (a b : String) : Bool := charListLe a.data b.data

/-- Python `sorted` on a list of strings: stable ascending sort under
`pyStrLe`. -/
def pySorted (l : List String) : List String :=
  List.insertionSort (fun a b => pyStrLe a b = true) l

/-- Association-list lookup, modelling Python `d[k]` / `k in d`. -/
def alistLookup (m : List (String × α)) (k : String) : Option α :=
  match m with
  | [] => none
  | (k', v) :: rest => if k' = k then some v else alistLookup rest k

/-- Association-list update, modelling Python `d[k] = v` (insertion order:
a fresh key is appended at the end, an existing key is overwritten in place). -/
def alistSet (m : List (String × α)) (k : String) (v : α) : List (String × α) :=
  match m with
  | [] => [(k, v)]
  | (k', v') :: rest =>
      if k' = k then (k, v) :: rest else (k', v') :: alistSet rest k v

/-! ## job_agent10.py : stuck detection (`detect_stuck_pattern`) -/

namespace JA10

/-- One entry of `memory["stuck_detection"]`: `{"count": .., "last_time": ..}`.
`last_time` is `None` right after initialisation. -/
structure StuckInfo where
  count : Nat
  last_time : Option Int
  deriving Repr, DecidableEq

/-- `memory["stuck_detection"]` is a dict from `f"{page_signature}_{action_type}"`
keys to `StuckInfo`. -/
abbrev StuckMap := List (String × StuckInfo)

/-- The dict key `f"{page_signature}_{action_type}"`. -/
def stuckKey (page_signature action_type : String) : String :=
  page_signature ++ "_" ++ action_type

/-- `detect_stuck_pattern(memory, page_signature, action_type)` from
job_agent10.py.  `now` is the current time in seconds (the two
`datetime.now()` calls inside the function are taken at the same instant).
Returns the boolean result together with the updated `stuck_detection` dict
(the Python function mutates `memory` in place). -/
def detect_stuck_pattern (sd : StuckMap) (page_signature action_type : String)
    (now : Int) : Bool × StuckMap :=
  let key := stuckKey page_signature action_type
  -- `if stuck_key not in memory["stuck_detection"]: ... = {"count": 0, "last_time": None}`
  let info := (alistLookup sd key).getD ⟨0, none⟩
  let newCount : Nat :=
    match info.last_time with
    | some last => if now - last < 300 then info.count + 1 else 1
    | none => 1
  let info' : StuckInfo := ⟨newCount, some now⟩
  (decide (newCount ≥ 3), alistSet sd key info')

/-! ## job_agent10.py : page analysis result, memory records, decision engine -/

/-- A button as collected by `analyze_page_enhanced` (text, automation id,
class attribute, displayed flag). -/
structure ButtonInfo where
  text : String
  data_automation_id : Option String
  cls : Option String
  displayed : Bool
  deriving Repr, DecidableEq

/-- The target of a smart action: a plain string, or (for the cookie branch)
the button dict itself. -/
inductive ActionTarget where
  | str (s : String)
  | button (b : ButtonInfo)
  deriving Repr, DecidableEq

/-- The dict returned by `generate_smart_action`. -/
structure SmartAction where
  action_type : String
  reasoning : String
  target : ActionTarget
  confidence : String
  using_memory : Bool
  deriving Repr, DecidableEq

/-- One record of `memory["action_history"]` as appended by `record_action`. -/
structure ActionRecord where
  timestamp : Int
  page_signature : String
  action : SmartAction
  code_snippet : String
  success : Bool
  error : Option String
  deriving Repr, DecidableEq

/-- The fields of `page_info` consulted by `generate_smart_action`. -/
structure PageInfo where
  url : String
  title : String
  page_signature : String
  modals_detected : Bool
  sign_in_detected : Bool
  form_filled : Bool
  buttons : List ButtonInfo
  deriving Repr, DecidableEq

/-- The parts of job_agent10's memory dict that the decision engine and the
recorder read and write. -/
structure Memory where
  action_history : List ActionRecord
  action_sequences : List (String × List String)
  stuck_detection : StuckMap
  deriving Repr, DecidableEq

/-- `get_last_successful_action(memory, page_signature)`: walk
`reversed(memory["action_history"])` and return the first record for this
signature whose `success` field is truthy. -/
def get_last_successful_action (memory : Memory) (page_signature : String) :
    Option ActionRecord :=
  memory.action_history.reverse.find?
    (fun a => a.page_signature = page_signature && a.success)

/-- `generate_smart_action(page_info, memory, resume_data, last_error)` from
job_agent10.py.  `resume_data` is not consulted by any branch and is omitted;
`now` is the time at which the embedded `detect_stuck_pattern` call happens.
Returns the chosen action together with the (possibly mutated) memory. -/
def generate_smart_action (page_info : PageInfo) (memory : Memory)
    (last_error : Option String) (now : Int) : SmartAction × Memory :=
  let page_signature := page_info.page_signature
  -- stuck branch: only evaluated when a filled sign-in form is showing
  let stuckStep : Option Bool × Memory :=
    if page_info.sign_in_detected && page_info.form_filled then
      let r := detect_stuck_pattern memory.stuck_detection page_signature "fill_form" now
      (some r.1, { memory with stuck_detection := r.2 })
    else (none, memory)
  match stuckStep with
  | (some true, memory') =>
      ({ action_type := "click_sign_in_button"
         reasoning := "Form is filled but we're stuck. Must click the sign-in submit button NOW."
         target := .str "Sign In Submit Button"
         confidence := "critical"
         using_memory := true }, memory')
  | (_, memory') =>
      -- replay branch: `if last_success and not last_error:`
      match get_last_successful_action memory' page_signature,
            truthyStr last_error with
      | some last_success, false =>
          ({ action_type := last_success.action.action_type
             reasoning := "Using previously successful action for this page"
             target := last_success.action.target
             confidence := "high"
             using_memory := true }, memory')
      | _, _ =>
          if page_info.modals_detected && page_info.sign_in_detected then
            if !page_info.form_filled then
              ({ action_type := "fill_sign_in_form"
                 reasoning := "Sign-in modal detected with empty form. Need to fill credentials."
                 target := .str "Email and Password fields"
                 confidence := "high"
                 using_memory := false }, memory')
            else
              ({ action_type := "click_sign_in_button"
                 reasoning := "Sign-in form is already filled. Must click submit button to proceed."
                 target := .str "Sign In Submit Button"
                 confidence := "high"
                 using_memory := false }, memory')
          else
            let cookie_buttons := page_info.buttons.filter (fun b =>
              b.data_automation_id = some "legalNoticeAcceptButton"
              || (strIn "accept" (asciiLower b.text)
                  && strIn "cookie" (asciiLower b.text)))
            match cookie_buttons with
            | b :: _ =>
                ({ action_type := "accept_cookies"
                   reasoning := "Cookie banner detected. Accepting to avoid blocking interactions."
                   target := .button b
                   confidence := "high"
                   using_memory := false }, memory')
            | [] =>
                ({ action_type := "navigate"
                   reasoning := "Looking for navigation buttons to progress"
                   target := .str "Next/Continue button"
                   confidence := "medium"
                   using_memory := false }, memory')

/-! ## job_agent10.py : `record_action` and the post-success handling of
`execute_step` -/

/-- `record_action(memory, page_signature, action, code_snippet, success,
error_msg)` from job_agent10.py: append a record, extend the per-signature
action sequence, then keep only the last 100 history records. -/
def record_action (memory : Memory) (now : Int) (page_signature : String)
    (action : SmartAction) (code_snippet : String) (success : Bool)
    (error_msg : Option String) : Memory :=
  let rec_ : ActionRecord :=
    { timestamp := now
      page_signature := page_signature
      action := action
      code_snippet := strTake code_snippet 500
      success := success
      error := error_msg }
  let history := memory.action_history ++ [rec_]
  let seqs :=
    let prev := (alistLookup memory.action_sequences page_signature).getD []
    alistSet memory.action_sequences page_signature (prev ++ [action.action_type])
  -- `if len(memory["action_history"]) > 100: ... = memory["action_history"][-100:]`
  let history' := if history.length > 100 then lastN 100 history else history
  { memory with action_history := history', action_sequences := seqs }

/-- Inputs of one `record_action` call (for iterating calls). -/
structure RecordInput where
  now : Int
  page_signature : String
  action : SmartAction
  code_snippet : String
  success : Bool
  error_msg : Option String

/-- A sequence of `record_action` calls, oldest first. -/
def record_actions (memory : Memory) : List RecordInput → Memory
  | [] => memory
  | i :: is =>
      record_actions
        (record_action memory i.now i.page_signature i.action i.code_snippet
          i.success i.error_msg) is

/-- The special handling in `execute_step` (job_agent10.py) after an action
whose state diff reported a change was recorded as a success:
`if action["action_type"] == "fill_sign_in_form" and not
detect_stuck_pattern(memory, page_signature, "fill_form"): ...
memory["stuck_detection"][f"{page_signature}_fill_form"] =
{"count": 10, "last_time": datetime.now().isoformat()}`.
The `and` short-circuits, and the `detect_stuck_pattern` call itself
mutates the stuck dict before the forced overwrite. -/
def execute_step_fill_success (memory : Memory) (page_signature : String)
    (action_type : String) (now : Int) : Memory :=
  if action_type = "fill_sign_in_form" then
    let r := detect_stuck_pattern memory.stuck_detection page_signature "fill_form" now
    if !r.1 then
      let sd' := alistSet r.2 (stuckKey page_signature "fill_form")
        (⟨10, some now⟩ : StuckInfo)
      { memory with stuck_detection := sd' }
    else { memory with stuck_detection := r.2 }
  else memory

end JA10

/-! ## job_agent9improved.py : state capture and the state-diff validator -/

namespace JA9

/-- The dict built by `capture_page_state` in job_agent9improved.py. -/
structure PageState where
  url : String
  title : String
  body_text_hash : String
  input_count : Nat
  button_count : Nat
  visible_modals : Nat
  error_messages : List String
  form_values : List (String × String)
  deriving Repr, DecidableEq

/-- `states_are_different(state1, state2, action_type)` from
job_agent9improved.py.  Returns `(different, verdict, reason)`.
The reason text for a new error uses one of the new messages (the Python
code formats `list(new_errors)[0]` from a set; the choice of element does
not affect the verdict). -/
def states_are_different (state1 state2 : PageState) (action_type : String) :
    Bool × String × String :=
  if state1.url ≠ state2.url then
    (true, "success", "URL changed - navigation successful")
  -- `if action_type == "click_button" and "sign" in str(action_type).lower():`
  else if action_type = "click_button" && strIn "sign" (asciiLower action_type)
          && state1.visible_modals > state2.visible_modals then
    (true, "success", "Modal closed - likely signed in")
  else
    let new_errors := state2.error_messages.filter
      (fun e => !state1.error_messages.contains e)
    match new_errors with
    | e :: _ => (true, "failure", "Error appeared: " ++ e)
    | [] =>
      if state1.body_text_hash ≠ state2.body_text_hash then
        let form_cleared :=
          if !state1.form_values.isEmpty then
            let cleared_fields := (state1.form_values.filter (fun fv =>
              !fv.2.data.isEmpty &&
              ((alistLookup state2.form_values fv.1).getD "").data.isEmpty)).length
            decide (cleared_fields ≥ state1.form_values.length / 2)
          else false
        if form_cleared then
          (true, "likely_success", "Form cleared - possibly submitted")
        else
          (true, "partial_success", "Page content changed")
      else if state1.visible_modals ≠ state2.visible_modals then
        if state2.visible_modals > state1.visible_modals then
          (true, "partial", "New modal appeared")
        else
          (true, "success", "Modal closed")
      else
        (false, "no_change", "No meaningful change detected - action likely failed")

end JA9

/-! ## MD5 (`hashlib.md5(...).hexdigest()`), as used by the signature
functions.  Bytes are `Nat`s below 256; the message is the UTF-8 encoding of
the hashed string (the signature payloads are ASCII, where UTF-8 bytes are
the code points). -/

namespace MD5

/-- The 64 round constants `K[i] = floor(abs(sin(i+1)) * 2^32)`. -/
def K : List Nat := [
  3614090360, 3905402710, 606105819, 3250441966, 4118548399, 1200080426, 2821735955, 4249261313,
  1770035416, 2336552879, 4294925233, 2304563134, 1804603682, 4254626195, 2792965006, 1236535329,
  4129170786, 3225465664, 643717713, 3921069994, 3593408605, 38016083, 3634488961, 3889429448,
  568446438, 3275163606, 4107603335, 1163531501, 2850285829, 4243563512, 1735328473, 2368359562,
  4294588738, 2272392833, 1839030562, 4259657740, 2763975236, 1272893353, 4139469664, 3200236656,
  681279174, 3936430074, 3572445317, 76029189, 3654602809, 3873151461, 530742520, 3299628645,
  4096336452, 1126891415, 2878612391, 4237533241, 1700485571, 2399980690, 4293915773, 2240044497,
  1873313359, 4264355552, 2734768916, 1309151649, 4149444226, 3174756917, 718787259, 3951481745]

/-- The per-round left-rotation amounts. -/
def sTab : List Nat := [
  7, 12, 17, 22, 7, 12, 17, 22, 7, 12, 17, 22, 7, 12, 17, 22,
  5, 9, 14, 20, 5, 9, 14, 20, 5, 9, 14, 20, 5, 9, 14, 20,
  4, 11, 16, 23, 4, 11, 16, 23, 4, 11, 16, 23, 4, 11, 16, 23,
  6, 10, 15, 21, 6, 10, 15, 21, 6, 10, 15, 21, 6, 10, 15, 21]

/-- 32-bit left rotation. -/
def rotl (x n : Nat) : Nat := ((x <<< n) % 4294967296) ||| (x >>> (32 - n))

/-- Little-endian 32-bit word from the first four bytes of a list. -/
def leWord (bs : List Nat) : Nat :=
  bs.getD 0 0 + 256 * bs.getD 1 0 + 65536 * bs.getD 2 0 + 16777216 * bs.getD 3 0

/-- The sixteen message words of one 64-byte block. -/
def blockWords (block : List Nat) : List Nat :=
  (List.range 16).map (fun j => leWord (block.drop (4 * j)))

/-- One of the 64 MD5 rounds on state `(a, b, c, d)`. -/
def md5Round (m : List Nat) (st : Nat × Nat × Nat × Nat) (i : Nat) :
    Nat × Nat × Nat × Nat :=
  let (a, b, c, d) := st
  let fg : Nat × Nat :=
    if i < 16 then ((b &&& c) ||| ((b ^^^ 4294967295) &&& d), i)
    else if i < 32 then ((d &&& b) ||| ((d ^^^ 4294967295) &&& c), (5 * i + 1) % 16)
    else if i < 48 then (b ^^^ c ^^^ d, (3 * i + 5) % 16)
    else (c ^^^ (b ||| (d ^^^ 4294967295)), (7 * i) % 16)
  let f := (fg.1 + a + K.getD i 0 + m.getD fg.2 0) % 4294967296
  (d, (b + rotl f (sTab.getD i 0)) % 4294967296, b, c)

/-- Process one 64-byte block. -/
def processBlock (st : Nat × Nat × Nat × Nat) (block : List Nat) :
    Nat × Nat × Nat × Nat :=
  let m := blockWords block
  let r := (List.range 64).foldl (md5Round m) st
  ((st.1 + r.1) % 4294967296, (st.2.1 + r.2.1) % 4294967296,
   (st.2.2.1 + r.2.2.1) % 4294967296, (st.2.2.2 + r.2.2.2) % 4294967296)

/-- Split into 64-byte chunks (fuel-based structural recursion; `fuel` bounds
the number of chunks, one unit per element is more than enough). -/
def chunksGo : Nat → List Nat → List (List Nat)
  | 0, _ => []
  | _, [] => []
  | fuel + 1, x :: xs => ((x :: xs).take 64) :: chunksGo fuel ((x :: xs).drop 64)

def chunks64 (l : List Nat) : List (List Nat) := chunksGo l.length l

/-- The `n` little-endian bytes of `x`. -/
def leBytes (n x : Nat) : List Nat := (List.range n).map (fun i => (x >>> (8 * i)) &&& 255)

/-- MD5 padding: `0x80`, zeros to 56 mod 64, then the bit length as eight
little-endian bytes. -/
def padBytes (msg : List Nat) : List Nat :=
  let k := (64 + 56 - ((msg.length + 1) % 64)) % 64
  msg ++ [128] ++ List.replicate k 0 ++ leBytes 8 ((msg.length * 8) % 18446744073709551616)

/-- The sixteen digest bytes of a byte message. -/
def md5Digest (msg : List Nat) : List Nat :=
  let st := (chunks64 (padBytes msg)).foldl processBlock
    (1732584193, 4023233417, 2562383102, 271733878)
  leBytes 4 st.1 ++ leBytes 4 st.2.1 ++ leBytes 4 st.2.2.1 ++ leBytes 4 st.2.2.2

def hexDigit : Nat → Char
  | 0 => '0' | 1 => '1' | 2 => '2' | 3 => '3' | 4 => '4' | 5 => '5' | 6 => '6'
  | 7 => '7' | 8 => '8' | 9 => '9' | 10 => 'a' | 11 => 'b' | 12 => 'c'
  | 13 => 'd' | 14 => 'e' | _ => 'f'

def byteHex (b : Nat) : String := String.mk [hexDigit (b / 16), hexDigit (b % 16)]

/-- Code points of a string; equals its UTF-8 bytes for ASCII payloads. -/
def strBytes (s : String) : List Nat := s.data.map Char.toNat

/-- `hashlib.md5(s.encode()).hexdigest()`. -/
def md5Hex (s : String) : String := String.join ((md5Digest (strBytes s)).map byteHex)

end MD5

/-! ## JSON serialisation of the signature payload (`json.dumps`) -/

/-- JSON string escaping (backslash and quote; the remaining escapes concern
control characters, which do not occur in the payloads considered here). -/
def jsonEscape (s : String) : String :=
  String.join (s.data.map (fun c =>
    if c = '\\' then "\\\\" else if c = '"' then "\\\"" else String.mk [c]))

def jsonStr (s : String) : String := "\"" ++ jsonEscape s ++ "\""

/-- `json.dumps` of a list of strings with the default `", "` separator. -/
def jsonStrList (l : List String) : String :=
  "[" ++ String.intercalate ", " (l.map jsonStr) ++ "]"

/-! ## job_agent9improved.py : `create_page_signature` -/

namespace JA9

/-- An element collected by the page analysis (inputs / selects / file
inputs); only the lengths of these lists feed the signature. -/
structure Element where
  desc : String
  deriving Repr, DecidableEq

/-- A button dict; `create_page_signature` reads its `'text'` entry. -/
structure Button where
  text : String
  deriving Repr, DecidableEq

/-- The parts of a job_agent9improved `page_info` consulted by
`create_page_signature`. -/
structure PageInfo where
  url : String
  inputs : List Element
  buttons : List Button
  selects : List Element
  file_inputs : List Element
  deriving Repr, DecidableEq

/-- Python `url.split('?')[0]`: the characters before the first `'?'`. -/
def urlBase (url : String) : String :=
  String.mk (url.data.takeWhile (fun c => c ≠ '?'))

/-- The `button_texts` loop: the non-empty texts of the first five buttons,
each truncated to 20 characters. -/
def button_texts (buttons : List Button) : List String :=
  (buttons.take 5).filterMap
    (fun b => if b.text.data.isEmpty then none else some (strTake b.text 20))

/-- `json.dumps(sig_elements, sort_keys=True)` for the signature element
list (a JSON array; `sort_keys` only affects dicts, of which there are
none). -/
def sig_str (url0 : String) (ni nb ns nf : Nat) (texts : List String) : String :=
  "[" ++ String.intercalate ", "
    [jsonStr url0, toString ni, toString nb, toString ns, toString nf,
     jsonStrList texts] ++ "]"

/-- `create_page_signature(page_info)` from job_agent9improved.py. -/
def create_page_signature (p : PageInfo) : String :=
  let texts := pySorted (button_texts p.buttons)
  MD5.md5Hex (sig_str (urlBase p.url) p.inputs.length p.buttons.length
    p.selects.length p.file_inputs.length texts)

end JA9

/-! ## job_agent10.py : `generate_page_signature` -/

namespace JA10

/-- What the driver queries inside `generate_page_signature` return:
URL, title, counts of inputs / buttons / modal elements and the body text
(`none` when the body lookup raises and its `try` block is skipped). -/
structure DriverView where
  current_url : String
  title : String
  input_count : Nat
  button_count : Nat
  modal_count : Nat
  body_text : Option String
  deriving Repr, DecidableEq

/-- `generate_page_signature(driver)` from job_agent10.py (non-exceptional
path: the outer `except` fallback to hashing only the URL is not taken). -/
def generate_page_signature (v : DriverView) : String :=
  let signature_parts := [v.current_url, v.title, toString v.input_count,
    toString v.button_count, toString v.modal_count]
  let signature_parts :=
    match v.body_text with
    | some t => signature_parts ++ [strTake t 500]
    | none => signature_parts
  MD5.md5Hex (String.intercalate "|" signature_parts)

end JA10

/-! ## Memory persistence: the loaders of job_agent10.py,
job_agent9improved.py and job_application_agent.py, and the save-time
pruning of job_agent9improved.py.

The top-level memory dict is modelled coarsely: a key maps to a JSON list,
a JSON dict, or some other value — enough to settle key-presence and
fail-soft behaviour.  File contents are `Option (Option MemFileDict)`:
`none` = the file does not exist, `some none` = it exists but `json.load`
raises on it, `some (some m)` = it parses to `m`. -/

inductive MVal where
  | list
  | dict
  | other
  deriving Repr, DecidableEq

abbrev MemFileDict := List (String × MVal)

/-- `if k not in memory: memory[k] = v` (a fresh dict key is appended). -/
def ensureKey (m : MemFileDict) (k : String) (v : MVal) : MemFileDict :=
  match alistLookup m k with
  | some _ => m
  | none => alistSet m k v

namespace JA10

/-- The top-level keys and value shapes of `DEFAULT_MEMORY` in
job_agent10.py. -/
def DEFAULT_MEMORY : MemFileDict :=
  [("learnings", .list), ("domain_knowledge", .dict), ("action_history", .list),
   ("page_patterns", .dict), ("success_sequences", .list),
   ("failure_patterns", .list), ("element_selectors", .dict),
   ("action_sequences", .dict), ("stuck_detection", .dict)]

/-- `load_agent_memory()` from job_agent10.py: missing file and unparseable
file both yield `DEFAULT_MEMORY.copy()`; a parsed dict is migrated by
adding each absent key. -/
def load_agent_memory (file : Option (Option MemFileDict)) : MemFileDict :=
  match file with
  | none => DEFAULT_MEMORY
  | some none => DEFAULT_MEMORY
  | some (some memory) =>
      let memory := ensureKey memory "action_sequences" .dict
      let memory := ensureKey memory "stuck_detection" .dict
      let memory := ensureKey memory "element_selectors" .dict
      let memory := ensureKey memory "success_sequences" .list
      let memory := ensureKey memory "failure_patterns" .list
      let memory := ensureKey memory "action_history" .list
      let memory := ensureKey memory "page_patterns" .dict
      memory

end JA10

namespace JA9

/-- The top-level keys and value shapes of `default_memory` in
job_agent9improved.py's `load_agent_memory`. -/
def default_memory : MemFileDict :=
  [("learnings", .list), ("domain_knowledge", .dict), ("action_history", .list),
   ("page_patterns", .dict), ("success_sequences", .list),
   ("failure_patterns", .list), ("element_selectors", .dict)]

/-- `load_agent_memory()` from job_agent9improved.py: missing file falls
through to `default_memory`, an exception while reading/parsing is caught
and also yields `default_memory`; a parsed dict is migrated by adding each
absent key (the per-key `domain_knowledge` merge only touches the inside of
that dict and is not visible at this granularity). -/
def load_agent_memory (file : Option (Option MemFileDict)) : MemFileDict :=
  match file with
  | none => default_memory
  | some none => default_memory
  | some (some memory) =>
      let memory := ensureKey memory "element_selectors" .dict
      let memory := ensureKey memory "action_history" .list
      let memory := ensureKey memory "page_patterns" .dict
      let memory := ensureKey memory "success_sequences" .list
      let memory := ensureKey memory "failure_patterns" .list
      let memory := ensureKey memory "domain_knowledge" .dict
      memory

/-- The four capped lists that `save_agent_memory` (job_agent9improved.py)
prunes before writing; the element types are irrelevant to the pruning. -/
structure MemoryLists (α β γ δ : Type) where
  learnings : List α
  action_history : List β
  success_sequences : List γ
  failure_patterns : List δ
  deriving Repr, DecidableEq

/-- The pruning step of `save_agent_memory` in job_agent9improved.py:
`memory["learnings"][-100:]`, `memory["action_history"][-200:]`,
`memory["success_sequences"][-50:]`, `memory["failure_patterns"][-50:]`.
The function returns the dict as it is serialised to disk. -/
def save_agent_memory (m : MemoryLists α β γ δ) : MemoryLists α β γ δ :=
  { m with
    learnings := lastN 100 m.learnings
    action_history := lastN 200 m.action_history
    success_sequences := lastN 50 m.success_sequences
    failure_patterns := lastN 50 m.failure_patterns }

end JA9

namespace JAA

/-- The default dict of `LearningMemory._load_memory` in
job_application_agent.py. -/
def default_memory : MemFileDict :=
  [("successful_patterns", .dict), ("failed_patterns", .dict),
   ("field_mappings", .dict), ("portal_signatures", .dict),
   ("retry_strategies", .list)]

/-- `LearningMemory._load_memory()` from job_application_agent.py: a missing
file yields the defaults, but the body has no `try/except`, so when the file
exists and `json.load` fails the `json.JSONDecodeError` propagates to the
caller (`LearningMemory.__init__`, hence startup). -/
def LearningMemory_load_memory (file : Option (Option MemFileDict)) :
    Except String MemFileDict :=
  match file with
  | none => .ok default_memory
  | some none => .error "json.JSONDecodeError"
  | some (some memory) => .ok memory

end JAA

/-! ## job_agent10.py : the generated `click_sign_in_button` executor -/

namespace JA10

/-- The observable outcome of one strategy in the generated
`click_sign_in_button` code: it performed a click/submit/key-press, or it
failed (its element look-ups or interactions raised inside its `try`
blocks, or it found nothing to act on; for strategy 6, whose `try` body
sets `clicked = True` unconditionally after `execute_script`, failing means
that call raised). -/
inductive StrategyOutcome where
  | clicked
  | failed
  deriving Repr, DecidableEq

/-- Result of running the generated `click_sign_in_button` code under
`exec` in `execute_step`. -/
structure ClickRunResult where
  clicked : Bool
  reported_hard_failure : Bool
  error_raised_to_caller : Bool
  deriving Repr, DecidableEq

/-- Sequential fall-through: each strategy runs only while `clicked` is
still false; a failed strategy leaves `clicked` untouched and control moves
to the next strategy. -/
def run_strategies : List StrategyOutcome → Bool
  | [] => false
  | o :: rest => if o = .clicked then true else run_strategies rest

/-- The whole generated `click_sign_in_button` block: the six strategies in
their fixed order, then `if not clicked: print("❌ Could not click sign-in
button with any strategy")`.  Every statement that can raise sits inside a
`try/except`, so no exception escapes to the `exec` caller. -/
def click_sign_in_executor (outcomes : List StrategyOutcome) : ClickRunResult :=
  let clicked := run_strategies outcomes
  { clicked := clicked
    reported_hard_failure := !clicked
    error_raised_to_caller := false }

/-- The caller's bookkeeping in `execute_step` after an `exec` that raised
nothing: the recorded success flag and error depend only on whether the
state diff reported a change. -/
def execute_step_attempt_record (changed : Bool) : Bool × Option String :=
  if changed then (true, none) else (false, some "No state change")

end JA10

/-! ## Concrete fixtures used in the closed-form checks below -/

/-- A remembered "navigate" action. -/
def navAction : JA10.SmartAction :=
  { action_type := "navigate", reasoning := "r",
    target := JA10.ActionTarget.str "Next/Continue button",
    confidence := "medium", using_memory := false }

/-- A successful history record of `navAction` on signature "p". -/
def navRecord : JA10.ActionRecord :=
  { timestamp := 0, page_signature := "p", action := navAction,
    code_snippet := "", success := true, error := none }

/-- A remembered "accept_cookies" action. -/
def cookieAction : JA10.SmartAction :=
  { action_type := "accept_cookies", reasoning := "r",
    target := JA10.ActionTarget.str "cookie banner",
    confidence := "high", using_memory := false }

/-- A successful history record of `cookieAction` on signature "q". -/
def cookieRecord : JA10.ActionRecord :=
  { timestamp := 3, page_signature := "q", action := cookieAction,
    code_snippet := "", success := true, error := none }

/-- A page "p" showing a sign-in modal whose credentials are filled. -/
def signInPage : JA10.PageInfo :=
  { url := "u", title := "t", page_signature := "p", modals_detected := true,
    sign_in_detected := true, form_filled := true, buttons := [] }

/-- A plain page "q" without modal or sign-in form. -/
def plainPage : JA10.PageInfo :=
  { url := "u", title := "t", page_signature := "q", modals_detected := false,
    sign_in_detected := false, form_filled := false, buttons := [] }

/-- Memory: `navRecord` in the history, ("p", "fill_form") at count 2
last seen at time 0. -/
def memStuck2 : JA10.Memory :=
  { action_history := [navRecord], action_sequences := [],
    stuck_detection := [("p_fill_form", ⟨2, some 0⟩)] }

/-- Memory: `navRecord` in the history, ("p", "fill_form") at count 5
last seen at time 0. -/
def memStuck5 : JA10.Memory :=
  { action_history := [navRecord], action_sequences := [],
    stuck_detection := [("p_fill_form", ⟨5, some 0⟩)] }

/-- Memory: only `cookieRecord` in the history. -/
def memCookie : JA10.Memory :=
  { action_history := [cookieRecord], action_sequences := [],
    stuck_detection := [] }

/-- Empty job_agent10 memory. -/
def memEmpty : JA10.Memory :=
  { action_history := [], action_sequences := [], stuck_detection := [] }

/-- A concrete `record_action` input. -/
def recInput : JA10.RecordInput :=
  { now := 0, page_signature := "p", action := navAction, code_snippet := "",
    success := true, error_msg := none }

/-- Pre-action state: sign-in modal open, no error shown. -/
def preState : JA9.PageState :=
  { url := "u", title := "t", body_text_hash := "h1", input_count := 2,
    button_count := 1, visible_modals := 1, error_messages := [],
    form_values := [("email", "a@b.c")] }

/-- Post-action state: same URL, an "Invalid password" error appeared. -/
def postState : JA9.PageState :=
  { url := "u", title := "t", body_text_hash := "h2", input_count := 2,
    button_count := 1, visible_modals := 1,
    error_messages := ["Invalid password"],
    form_values := [("email", "a@b.c")] }

/-- A six-button page, labels "a".."f" in order. -/
def sixButtonsA : JA9.PageInfo :=
  { url := "https://jobs.example/apply", inputs := [], selects := [],
    file_inputs := [],
    buttons := [⟨"a"⟩, ⟨"b"⟩, ⟨"c"⟩, ⟨"d"⟩, ⟨"e"⟩, ⟨"f"⟩] }

/-- The same six buttons, rotated so that "f" comes first. -/
def sixButtonsB : JA9.PageInfo :=
  { url := "https://jobs.example/apply", inputs := [], selects := [],
    file_inputs := [],
    buttons := [⟨"f"⟩, ⟨"a"⟩, ⟨"b"⟩, ⟨"c"⟩, ⟨"d"⟩, ⟨"e"⟩] }

/-- A three-button page, labels in order. -/
def threeButtonsA : JA9.PageInfo :=
  { url := "https://jobs.example/apply", inputs := [], selects := [],
    file_inputs := [],
    buttons := [⟨"Next"⟩, ⟨"Back"⟩, ⟨"Save"⟩] }

/-- The same three buttons, permuted. -/
def threeButtonsB : JA9.PageInfo :=
  { url := "https://jobs.example/apply", inputs := [], selects := [],
    file_inputs := [],
    buttons := [⟨"Save"⟩, ⟨"Next"⟩, ⟨"Back"⟩] }

/-! ## Claims -/

theorem alistLookup_alistSet_self (m : List (String × α)) (k : String) (v : α) :
    alistLookup (alistSet m k v) k = some v := by
  induction m with
  | nil => simp [alistSet, alistLookup]
  | cons hd tl ih =>
      obtain ⟨k', v'⟩ := hd
      by_cases h : k' = k <;> simp [alistSet, alistLookup, h, ih]

theorem alistLookup_alistSet_ne (m : List (String × α)) (k k' : String) (v : α)
    (h : k' ≠ k) : alistLookup (alistSet m k v) k' = alistLookup m k' := by
  induction m with
  | nil => simp [alistSet, alistLookup, Ne.symm h]
  | cons hd tl ih =>
      obtain ⟨k₀, v₀⟩ := hd
      by_cases h₀ : k₀ = k
      · subst h₀
        simp [alistSet, alistLookup, Ne.symm h]
      · simp [alistSet, alistLookup, h₀]
        by_cases h₁ : k₀ = k' <;> simp [h₁, ih]

/-- RFC 1321 test vector. -/
example : MD5.md5Hex "abc" = "900150983cd24fb0d6963f7d28e17f72" := by rfl

/-- RFC 1321 test vector. -/
example : MD5.md5Hex "" = "d41d8cd98f00b204e9800998ecf8427e" := by rfl

/-- C1: for every (page-signature, action-type) pair, a call to
`detect_stuck_pattern` increments the pair's count when the previous
observation is less than 300 seconds old, resets it to 1 otherwise
(including the very first observation), always stamps the pair with the
current time, and returns stuck exactly when the updated count is at least
3; three in-window observations of a fresh pair give stuck on the third
call, and an observation after the window gives not-stuck. -/
theorem C1_detect_stuck_pattern_spec (sd : JA10.StuckMap) (sig ty : String)
    (now : Int) :
    (∃ c : Nat,
        alistLookup (JA10.detect_stuck_pattern sd sig ty now).2
          (JA10.stuckKey sig ty) = some ⟨c, some now⟩ ∧
        (JA10.detect_stuck_pattern sd sig ty now).1 = decide (3 ≤ c)) ∧
    (∀ c : Nat, ∀ last : Int,
        alistLookup sd (JA10.stuckKey sig ty) = some ⟨c, some last⟩ →
        now - last < 300 →
        JA10.detect_stuck_pattern sd sig ty now =
          (decide (3 ≤ c + 1),
           alistSet sd (JA10.stuckKey sig ty) ⟨c + 1, some now⟩)) ∧
    (∀ c : Nat, ∀ last : Int,
        alistLookup sd (JA10.stuckKey sig ty) = some ⟨c, some last⟩ →
        ¬ now - last < 300 →
        JA10.detect_stuck_pattern sd sig ty now =
          (false, alistSet sd (JA10.stuckKey sig ty) ⟨1, some now⟩)) ∧
    (alistLookup sd (JA10.stuckKey sig ty) = none →
        JA10.detect_stuck_pattern sd sig ty now =
          (false, alistSet sd (JA10.stuckKey sig ty) ⟨1, some now⟩)) ∧
    (∀ t1 t2 t3 t4 : Int,
        alistLookup sd (JA10.stuckKey sig ty) = none →
        t2 - t1 < 300 → t3 - t2 < 300 → ¬ t4 - t3 < 300 →
        (JA10.detect_stuck_pattern sd sig ty t1).1 = false ∧
        (JA10.detect_stuck_pattern
          (JA10.detect_stuck_pattern sd sig ty t1).2 sig ty t2).1 = false ∧
        (JA10.detect_stuck_pattern
          (JA10.detect_stuck_pattern
            (JA10.detect_stuck_pattern sd sig ty t1).2 sig ty t2).2
          sig ty t3).1 = true ∧
        (JA10.detect_stuck_pattern
          (JA10.detect_stuck_pattern
            (JA10.detect_stuck_pattern
              (JA10.detect_stuck_pattern sd sig ty t1).2 sig ty t2).2
            sig ty t3).2 sig ty t4).1 = false) := by
  refine ⟨?_, ?_, ?_, ?_, ?_⟩
  · rcases hl : alistLookup sd (JA10.stuckKey sig ty) with _ | ⟨c, _ | last⟩
    · exact ⟨1, by simp [JA10.detect_stuck_pattern, hl, alistLookup_alistSet_self]⟩
    · exact ⟨1, by simp [JA10.detect_stuck_pattern, hl, alistLookup_alistSet_self]⟩
    · by_cases hwin : now - last < 300
      · exact ⟨c + 1,
          by simp [JA10.detect_stuck_pattern, hl, hwin, alistLookup_alistSet_self]⟩
      · exact ⟨1,
          by simp [JA10.detect_stuck_pattern, hl, hwin, alistLookup_alistSet_self]⟩
  · intro c last hl hwin
    simp [JA10.detect_stuck_pattern, hl, hwin]
  · intro c last hl hwin
    simp [JA10.detect_stuck_pattern, hl, hwin]
  · intro hl
    simp [JA10.detect_stuck_pattern, hl]
  · intro t1 t2 t3 t4 hl h12 h23 h34
    simp [JA10.detect_stuck_pattern, hl, alistLookup_alistSet_self,
      alistLookup_alistSet_self, h12, h23, h34]

/-- C1 witness: the fresh pair ("sig", "fill_form"), observed at times 0,
10 and 20 (within the window) and again at 400 (after the window). -/
theorem C1_detect_stuck_pattern_spec_witness :
    (JA10.detect_stuck_pattern [] "sig" "fill_form" 0).1 = false ∧
    (JA10.detect_stuck_pattern
      (JA10.detect_stuck_pattern [] "sig" "fill_form" 0).2
      "sig" "fill_form" 10).1 = false ∧
    (JA10.detect_stuck_pattern
      (JA10.detect_stuck_pattern
        (JA10.detect_stuck_pattern [] "sig" "fill_form" 0).2
        "sig" "fill_form" 10).2 "sig" "fill_form" 20).1 = true ∧
    (JA10.detect_stuck_pattern
      (JA10.detect_stuck_pattern
        (JA10.detect_stuck_pattern
          (JA10.detect_stuck_pattern [] "sig" "fill_form" 0).2
          "sig" "fill_form" 10).2 "sig" "fill_form" 20).2
      "sig" "fill_form" 400).1 = false :=
  (C1_detect_stuck_pattern_spec [] "sig" "fill_form" 0).2.2.2.2 0 10 20 400
    (by rfl) (by decide) (by decide) (by decide)

/-- C2: when the pair (signature, "fill_form") has already been observed
with count at least 2 inside the 5-minute window — so the decision-time
observation brings the count to at least 3 and the stuck detector reports
stuck — and the page shows a sign-in form whose credential fields are
filled, `generate_smart_action` returns the `click_sign_in_button` action,
whatever the action history and pending error are. -/
theorem C2_stuck_escalation_forces_submit (page_info : JA10.PageInfo)
    (memory : JA10.Memory) (last_error : Option String) (now last : Int)
    (c : Nat)
    (hsign : page_info.sign_in_detected = true)
    (hfill : page_info.form_filled = true)
    (hc : alistLookup memory.stuck_detection
      (JA10.stuckKey page_info.page_signature "fill_form") = some ⟨c, some last⟩)
    (h2 : 2 ≤ c) (hwin : now - last < 300) :
    (JA10.generate_smart_action page_info memory last_error now).1.action_type
      = "click_sign_in_button" := by
  have h3 : 3 ≤ c + 1 := by omega
  simp [JA10.generate_smart_action, JA10.detect_stuck_pattern, hsign, hfill,
    hc, hwin, h3]

/-- C2 witness: signature "p" already at count 2 from time 0, decision at
time 10, with a remembered successful "navigate" action that is ignored. -/
theorem C2_stuck_escalation_forces_submit_witness :
    (JA10.generate_smart_action signInPage memStuck2 none 10).1.action_type
      = "click_sign_in_button" :=
  C2_stuck_escalation_forces_submit _ _ none 10 0 2 (by rfl) (by rfl)
    (by rfl) (by decide) (by decide)

/-- C3 counterexample: a memory whose latest success for signature "p" is a
"navigate" action, no pending error, but the page shows a filled sign-in
form and the (signature, "fill_form") pair is deep inside the stuck window:
the decision is `click_sign_in_button`, not the remembered kind. -/
theorem C3_replay_counterexample :
    JA10.get_last_successful_action memStuck5 "p" = some navRecord ∧
    (JA10.generate_smart_action signInPage memStuck5 none 10).1.action_type
      ≠ navRecord.action.action_type := by
  constructor
  · rfl
  · decide

/-- C3 (amended): if the latest success record for the signature exists, no
error is pending, and the stuck-escalation branch does not fire (the page
does not show a filled sign-in form whose (signature, "fill_form") pair the
detector flags as stuck at decision time), then the chosen action kind is
the recorded kind. -/
theorem C3_replay_policy (page_info : JA10.PageInfo) (memory : JA10.Memory)
    (now : Int) (r : JA10.ActionRecord)
    (hls : JA10.get_last_successful_action memory page_info.page_signature
      = some r)
    (hnostuck : ¬(page_info.sign_in_detected = true ∧
      page_info.form_filled = true ∧
      (JA10.detect_stuck_pattern memory.stuck_detection
        page_info.page_signature "fill_form" now).1 = true)) :
    (JA10.generate_smart_action page_info memory none now).1.action_type
      = r.action.action_type := by
  by_cases hsf : page_info.sign_in_detected && page_info.form_filled
  · rcases Bool.and_eq_true_iff.mp hsf with ⟨hs, hf⟩
    have hdet : (JA10.detect_stuck_pattern memory.stuck_detection
        page_info.page_signature "fill_form" now).1 = false := by
      rcases Bool.eq_false_or_eq_true (JA10.detect_stuck_pattern
        memory.stuck_detection page_info.page_signature "fill_form" now).1
        with h | h
      · exact absurd ⟨hs, hf, h⟩ hnostuck
      · exact h
    simp [JA10.generate_smart_action, hsf, hdet,
      JA10.get_last_successful_action] at *
    simp [hls, truthyStr]
  · simp [JA10.generate_smart_action, hsf, hls, truthyStr]

/-- C3 witness: a plain page (no sign-in form) with a remembered successful
"accept_cookies" action and no pending error replays that kind. -/
theorem C3_replay_policy_witness :
    (JA10.generate_smart_action plainPage memCookie none 7).1.action_type
      = cookieRecord.action.action_type :=
  C3_replay_policy _ _ 7 _ (by rfl) (by decide)

/-- C9: after a successful `fill_sign_in_form` on a page whose
(signature, "fill_form") pair the guard observation does not flag as stuck,
`execute_step` force-sets that pair's counter to `{count: 10, last_time:
now}` — at or above the threshold of 3 — and any decision within the window
on the same page, while the sign-in form is detected and filled, is the
`click_sign_in_button` action. -/
theorem C9_force_submit_after_fill (memory : JA10.Memory)
    (page_info : JA10.PageInfo) (last_error : Option String) (now now' : Int)
    (hguard : (JA10.detect_stuck_pattern memory.stuck_detection
      page_info.page_signature "fill_form" now).1 = false)
    (hsign : page_info.sign_in_detected = true)
    (hfill : page_info.form_filled = true)
    (hwin : now' - now < 300) :
    alistLookup (JA10.execute_step_fill_success memory page_info.page_signature
        "fill_sign_in_form" now).stuck_detection
      (JA10.stuckKey page_info.page_signature "fill_form")
      = some ⟨10, some now⟩ ∧
    3 ≤ 10 ∧
    (JA10.generate_smart_action page_info
      (JA10.execute_step_fill_success memory page_info.page_signature
        "fill_sign_in_form" now)
      last_error now').1.action_type = "click_sign_in_button" := by
  have hsd : (JA10.execute_step_fill_success memory page_info.page_signature
      "fill_sign_in_form" now).stuck_detection =
      alistSet (JA10.detect_stuck_pattern memory.stuck_detection
          page_info.page_signature "fill_form" now).2
        (JA10.stuckKey page_info.page_signature "fill_form")
        (⟨10, some now⟩ : JA10.StuckInfo) := by
    simp [JA10.execute_step_fill_success, hguard]
  refine ⟨?_, by omega, ?_⟩
  · rw [hsd]
    exact alistLookup_alistSet_self _ _ _
  · simp [JA10.generate_smart_action, JA10.detect_stuck_pattern, hsign, hfill,
      hsd, alistLookup_alistSet_self, hwin]

/-- C9 witness: empty stuck state, fill succeeds at time 0, next decision at
time 5 on the same (still filled) sign-in page. -/
theorem C9_force_submit_after_fill_witness :
    alistLookup (JA10.execute_step_fill_success
        { action_history := [], action_sequences := [], stuck_detection := [] }
        "p" "fill_sign_in_form" 0).stuck_detection "p_fill_form"
      = some ⟨10, some 0⟩ ∧
    3 ≤ 10 ∧
    (JA10.generate_smart_action signInPage
      (JA10.execute_step_fill_success
        { action_history := [], action_sequences := [], stuck_detection := [] }
        "p" "fill_sign_in_form" 0)
      none 5).1.action_type = "click_sign_in_button" :=
  C9_force_submit_after_fill
    { action_history := [], action_sequences := [], stuck_detection := [] }
    signInPage none 0 5 (by rfl) (by rfl) (by rfl) (by decide)

/-- C5: whenever the URL did not change and the post-action state carries an
error message absent from the pre-action state, the job_agent9improved
state-diff validator returns the verdict "failure" (for any action type). -/
theorem C5_new_error_is_failure (state1 state2 : JA9.PageState)
    (action_type : String) (e : String)
    (hurl : state1.url = state2.url)
    (he : e ∈ state2.error_messages)
    (hne : e ∉ state1.error_messages) :
    (JA9.states_are_different state1 state2 action_type).2.1 = "failure" := by
  have hsign : strIn "sign" (asciiLower "click_button") = false := by decide
  have hfilter : state2.error_messages.filter
      (fun x => !state1.error_messages.contains x) ≠ [] := by
    intro hnil
    have hmem : e ∈ state2.error_messages.filter
        (fun x => !state1.error_messages.contains x) := by
      refine List.mem_filter.mpr ⟨he, ?_⟩
      simpa using hne
    rw [hnil] at hmem
    exact absurd hmem (List.not_mem_nil e)
  rcases hf : state2.error_messages.filter
      (fun x => !state1.error_messages.contains x) with _ | ⟨e', rest⟩
  · exact absurd hf hfilter
  · by_cases hat : action_type = "click_button"
    · subst hat
      simp at hf
      simp [JA9.states_are_different, hurl, hsign, hf]
    · simp at hf
      simp [JA9.states_are_different, hurl, hat, hf]

/-- C5 witness: identical URLs, "Invalid password" appears only in the
post-action state, verdict "failure". -/
theorem C5_new_error_is_failure_witness :
    (JA9.states_are_different preState postState "click_button").2.1
      = "failure" :=
  C5_new_error_is_failure preState postState "click_button"
    "Invalid password" (by rfl) (by decide) (by decide)

theorem lastN_length_le (n : Nat) (l : List α) : (lastN n l).length ≤ n := by
  simp [lastN]
  omega

theorem lastN_of_le (n : Nat) (l : List α) (h : l.length ≤ n) :
    lastN n l = l := by
  simp [lastN, Nat.sub_eq_zero_of_le h]

/-- `lastN` keeps a suffix: the evicted records are exactly an initial
segment. -/
theorem lastN_suffix (n : Nat) (l : List α) : ∃ d, d ++ lastN n l = l :=
  ⟨l.take (l.length - n), List.take_append_drop _ _⟩

theorem record_action_history_eq (memory : JA10.Memory) (now : Int)
    (sig : String) (a : JA10.SmartAction) (code : String) (succ : Bool)
    (err : Option String) :
    (JA10.record_action memory now sig a code succ err).action_history =
      lastN 100 (memory.action_history ++
        [{ timestamp := now, page_signature := sig, action := a,
           code_snippet := strTake code 500, success := succ, error := err }]) := by
  simp only [JA10.record_action]
  split
  · rfl
  · rename_i h
    rw [lastN_of_le _ _ (by omega)]

theorem record_action_length_le (memory : JA10.Memory) (now : Int)
    (sig : String) (a : JA10.SmartAction) (code : String) (succ : Bool)
    (err : Option String) :
    (JA10.record_action memory now sig a code succ err).action_history.length
      ≤ 100 := by
  rw [record_action_history_eq]
  exact lastN_length_le _ _

theorem record_actions_length_le (inputs : List JA10.RecordInput)
    (hne : inputs ≠ []) (memory : JA10.Memory) :
    (JA10.record_actions memory inputs).action_history.length ≤ 100 := by
  induction inputs generalizing memory with
  | nil => exact absurd rfl hne
  | cons i is ih =>
      rcases is with _ | ⟨j, js⟩
      · exact record_action_length_le _ _ _ _ _ _ _
      · exact ih (by simp) _

/-- C6: job_agent10's `record_action` always leaves the action history at
the result of appending the new record and keeping the last 100 entries —
so after any (non-empty) sequence of calls, from any starting memory, the
history holds at most 100 records, and pruning evicts exactly the oldest
prefix, keeping the most recent records in order.  At save time,
job_agent9improved keeps the last 200 action records the same way. -/
theorem C6_history_cap (memory : JA10.Memory) :
    (∀ (now : Int) (sig : String) (a : JA10.SmartAction) (code : String)
        (succ : Bool) (err : Option String),
      (JA10.record_action memory now sig a code succ err).action_history =
        lastN 100 (memory.action_history ++
          [{ timestamp := now, page_signature := sig, action := a,
             code_snippet := strTake code 500, success := succ, error := err }]) ∧
      (JA10.record_action memory now sig a code succ err).action_history.length
        ≤ 100 ∧
      ∃ dropped,
        dropped ++
          (JA10.record_action memory now sig a code succ err).action_history =
        memory.action_history ++
          [{ timestamp := now, page_signature := sig, action := a,
             code_snippet := strTake code 500, success := succ, error := err }]) ∧
    (∀ inputs : List JA10.RecordInput, inputs ≠ [] →
      (JA10.record_actions memory inputs).action_history.length ≤ 100) ∧
    (∀ (α β γ δ : Type) (m : JA9.MemoryLists α β γ δ),
      (JA9.save_agent_memory m).action_history = lastN 200 m.action_history ∧
      (JA9.save_agent_memory m).action_history.length ≤ 200 ∧
      ∃ dropped,
        dropped ++ (JA9.save_agent_memory m).action_history
          = m.action_history) := by
  refine ⟨?_, ?_, ?_⟩
  · intro now sig a code succ err
    refine ⟨record_action_history_eq _ _ _ _ _ _ _,
      record_action_length_le _ _ _ _ _ _ _, ?_⟩
    rw [record_action_history_eq]
    exact lastN_suffix _ _
  · intro inputs hne
    exact record_actions_length_le inputs hne memory
  · intro α β γ δ m
    refine ⟨?_, ?_, ?_⟩
    · simp [JA9.save_agent_memory]
    · simp only [JA9.save_agent_memory]
      exact lastN_length_le _ _
    · simp only [JA9.save_agent_memory]
      exact lastN_suffix _ _

/-- C6 witness: one `record_action` call on the empty memory. -/
theorem C6_history_cap_witness :
    (JA10.record_actions memEmpty [recInput]).action_history.length ≤ 100 :=
  (C6_history_cap memEmpty).2.1 [recInput] (by simp)

theorem charToNatInj {a b : Char} (h : a.toNat = b.toNat) : a = b := by
  have hv : a.val = b.val := by
    apply UInt32.eq_of_val_eq
    exact Fin.ext h
  exact Char.eq_of_val_eq hv

theorem charListLe_cons (a b : Char) (as bs : List Char) :
    charListLe (a :: as) (b :: bs) = true ↔
      (a.toNat < b.toNat ∨ (a.toNat = b.toNat ∧ charListLe as bs = true)) := by
  simp only [charListLe]
  by_cases h1 : a.toNat < b.toNat
  · simp [h1]
  · by_cases h2 : b.toNat < a.toNat
    · simp [h1, h2]
      omega
    · have he : a.toNat = b.toNat := by omega
      simp [h1, h2, he]

theorem charListLe_total : ∀ as bs : List Char,
    charListLe as bs = true ∨ charListLe bs as = true := by
  intro as
  induction as with
  | nil => intro bs; left; rfl
  | cons a as ih =>
      intro bs
      rcases bs with _ | ⟨b, bs⟩
      · right; rfl
      · rw [charListLe_cons, charListLe_cons]
        rcases Nat.lt_trichotomy a.toNat b.toNat with h | h | h
        · exact Or.inl (Or.inl h)
        · rcases ih bs with hr | hr
          · exact Or.inl (Or.inr ⟨h, hr⟩)
          · exact Or.inr (Or.inr ⟨h.symm, hr⟩)
        · exact Or.inr (Or.inl h)

theorem charListLe_trans : ∀ as bs cs : List Char, charListLe as bs = true →
    charListLe bs cs = true → charListLe as cs = true := by
  intro as
  induction as with
  | nil => intro bs cs h1 h2; rfl
  | cons a as ih =>
      intro bs cs h1 h2
      rcases bs with _ | ⟨b, bs⟩
      · simp [charListLe] at h1
      · rcases cs with _ | ⟨c, cs⟩
        · simp [charListLe] at h2
        · rw [charListLe_cons] at h1 h2 ⊢
          rcases h1 with h1 | ⟨he1, hr1⟩
          · rcases h2 with h2 | ⟨he2, hr2⟩
            · exact Or.inl (by omega)
            · exact Or.inl (by omega)
          · rcases h2 with h2 | ⟨he2, hr2⟩
            · exact Or.inl (by omega)
            · exact Or.inr ⟨by omega, ih bs cs hr1 hr2⟩

theorem charListLe_antisymm : ∀ as bs : List Char, charListLe as bs = true →
    charListLe bs as = true → as = bs := by
  intro as
  induction as with
  | nil =>
      intro bs h1 h2
      rcases bs with _ | ⟨b, bs⟩
      · rfl
      · simp [charListLe] at h2
  | cons a as ih =>
      intro bs h1 h2
      rcases bs with _ | ⟨b, bs⟩
      · simp [charListLe] at h1
      · rw [charListLe_cons] at h1 h2
        rcases h1 with h1 | ⟨he1, hr1⟩
        · rcases h2 with h2 | ⟨he2, hr2⟩
          · exact ((by omega : False)).elim
          · exact ((by omega : False)).elim
        · rcases h2 with h2 | ⟨he2, hr2⟩
          · exact ((by omega : False)).elim
          · rw [charToNatInj he1, ih bs hr1 hr2]

theorem pyStrLe_antisymm (a b : String) (h1 : pyStrLe a b = true)
    (h2 : pyStrLe b a = true) : a = b := by
  rcases a with ⟨as⟩
  rcases b with ⟨bs⟩
  have := charListLe_antisymm as bs h1 h2
  simp [this]

/-- C4 (amended): both signature functions are deterministic, and
`create_page_signature` is invariant under permutations of the button list
provided the page has at most five buttons — the signature reads only the
labels of the first five buttons (sorted), so permutations that change
which buttons are among the first five can change the signature. -/
theorem C4_signature_determinism_and_perm (p1 p2 : JA9.PageInfo)
    (v : JA10.DriverView) :
    JA9.create_page_signature p1 = JA9.create_page_signature p1 ∧
    JA10.generate_page_signature v = JA10.generate_page_signature v ∧
    (p1.url = p2.url → p1.inputs = p2.inputs → p1.selects = p2.selects →
     p1.file_inputs = p2.file_inputs → p1.buttons.length ≤ 5 →
     p1.buttons.Perm p2.buttons →
     JA9.create_page_signature p1 = JA9.create_page_signature p2) := by
  refine ⟨rfl, rfl, ?_⟩
  intro hu hi hs hf hlen hperm
  have hlen2 : p2.buttons.length ≤ 5 := hperm.length_eq ▸ hlen
  have hperm2 : (JA9.button_texts p1.buttons).Perm
      (JA9.button_texts p2.buttons) := by
    rw [JA9.button_texts, JA9.button_texts, List.take_of_length_le hlen,
      List.take_of_length_le hlen2]
    exact hperm.filterMap _
  haveI instTot : IsTotal String (fun a b => pyStrLe a b = true) :=
    ⟨fun a b => charListLe_total a.data b.data⟩
  haveI instTr : IsTrans String (fun a b => pyStrLe a b = true) :=
    ⟨fun a b c => charListLe_trans a.data b.data c.data⟩
  haveI instAnti : IsAntisymm String (fun a b => pyStrLe a b = true) :=
    ⟨pyStrLe_antisymm⟩
  have hsorted : pySorted (JA9.button_texts p1.buttons)
      = pySorted (JA9.button_texts p2.buttons) := by
    apply List.eq_of_perm_of_sorted
      (((List.perm_insertionSort _ _).trans hperm2).trans
        (List.perm_insertionSort _ _).symm)
      (List.sorted_insertionSort _ _) (List.sorted_insertionSort _ _)
  simp [JA9.create_page_signature, hu, hi, hs, hf, hperm.length_eq, hsorted]

/-- C4 witness: a concrete three-button page and a permutation of it have
the same signature. -/
theorem C4_signature_determinism_and_perm_witness :
    JA9.create_page_signature threeButtonsA
      = JA9.create_page_signature threeButtonsB :=
  (C4_signature_determinism_and_perm threeButtonsA threeButtonsB
    { current_url := "u", title := "t", input_count := 0, button_count := 0,
      modal_count := 0, body_text := none }).2.2
    (by rfl) (by rfl) (by rfl) (by rfl) (by decide) (by decide)

set_option maxRecDepth 100000 in
/-- C4 counterexample: with six buttons, rotating the button list changes
which five labels enter the signature, and the two signatures differ —
the claim's unrestricted permutation-invariance fails. -/
theorem C4_signature_perm_counterexample :
    sixButtonsA.buttons.Perm sixButtonsB.buttons ∧
    sixButtonsA.url = sixButtonsB.url ∧
    sixButtonsA.inputs = sixButtonsB.inputs ∧
    sixButtonsA.selects = sixButtonsB.selects ∧
    sixButtonsA.file_inputs = sixButtonsB.file_inputs ∧
    JA9.create_page_signature sixButtonsA
      ≠ JA9.create_page_signature sixButtonsB := by
  refine ⟨by decide, rfl, rfl, rfl, rfl, ?_⟩
  decide

theorem run_strategies_eq_false (l : List JA10.StrategyOutcome) :
    JA10.run_strategies l = false ↔
      ∀ o ∈ l, o = JA10.StrategyOutcome.failed := by
  induction l with
  | nil => simp [JA10.run_strategies]
  | cons o rest ih => cases o <;> simp [JA10.run_strategies, ih]

/-- C7 counterexample: when all six strategies fail, the generated
`click_sign_in_button` code reports the hard failure (the `❌` print with
`clicked` still false) but raises nothing to its caller — the claim's
"propagated to the caller as an error" half is false. -/
theorem C7_propagation_counterexample :
    (JA10.click_sign_in_executor
      (List.replicate 6 JA10.StrategyOutcome.failed)).reported_hard_failure
      = true ∧
    (JA10.click_sign_in_executor
      (List.replicate 6 JA10.StrategyOutcome.failed)).error_raised_to_caller
      = false :=
  ⟨rfl, rfl⟩

/-- C7 (amended): the click executor attempts its strategies in fixed
order, a failing strategy silently falls through to the next, and it
reports a hard failure exactly when every strategy fails; that failure is
only printed, never raised to the caller — the caller instead classifies
the attempt through the state diff, recording it as unsuccessful with
error "No state change". -/
theorem C7_strategy_fallthrough (outcomes rest : List JA10.StrategyOutcome) :
    JA10.run_strategies (JA10.StrategyOutcome.failed :: rest)
      = JA10.run_strategies rest ∧
    ((JA10.click_sign_in_executor outcomes).reported_hard_failure = true ↔
      ∀ o ∈ outcomes, o = JA10.StrategyOutcome.failed) ∧
    (JA10.click_sign_in_executor outcomes).error_raised_to_caller = false ∧
    JA10.execute_step_attempt_record false = (false, some "No state change") := by
  refine ⟨by simp [JA10.run_strategies], ?_, rfl, rfl⟩
  rw [show (JA10.click_sign_in_executor outcomes).reported_hard_failure
      = !JA10.run_strategies outcomes from rfl]
  rw [Bool.not_eq_true']
  exact run_strategies_eq_false outcomes

/-- C7 witness: one failed strategy falls through to a successful second
one; a single failed strategy makes the executor report a hard failure. -/
theorem C7_strategy_fallthrough_witness :
    JA10.run_strategies
        [JA10.StrategyOutcome.failed, JA10.StrategyOutcome.clicked]
      = JA10.run_strategies [JA10.StrategyOutcome.clicked] ∧
    (JA10.click_sign_in_executor
      [JA10.StrategyOutcome.failed]).reported_hard_failure = true :=
  ⟨(C7_strategy_fallthrough [JA10.StrategyOutcome.failed,
      JA10.StrategyOutcome.clicked] [JA10.StrategyOutcome.clicked]).1,
   (C7_strategy_fallthrough [JA10.StrategyOutcome.failed] []).2.1.mpr
    (by decide)⟩

/-- C8 counterexample: an existing but unparseable memory file makes
`LearningMemory._load_memory` (job_application_agent.py) propagate the JSON
parse error instead of returning the defaults. -/
theorem C8_corrupt_file_counterexample :
    JAA.LearningMemory_load_memory (some none)
      = Except.error "json.JSONDecodeError" :=
  rfl

/-- C8 (amended): the job_agent10 and job_agent9improved loaders return
their default memory, without raising, for both a missing and a corrupt
file; job_application_agent's `_load_memory` returns defaults only for a
missing file and raises on a corrupt one. -/
theorem C8_load_fails_soft :
    JA10.load_agent_memory none = JA10.DEFAULT_MEMORY ∧
    JA10.load_agent_memory (some none) = JA10.DEFAULT_MEMORY ∧
    JA9.load_agent_memory none = JA9.default_memory ∧
    JA9.load_agent_memory (some none) = JA9.default_memory ∧
    JAA.LearningMemory_load_memory none = Except.ok JAA.default_memory ∧
    ∃ e, JAA.LearningMemory_load_memory (some none) = Except.error e :=
  ⟨rfl, rfl, rfl, rfl, rfl, ⟨"json.JSONDecodeError", rfl⟩⟩

theorem ensureKey_isSome_self (m : MemFileDict) (k : String) (v : MVal) :
    (alistLookup (ensureKey m k v) k).isSome = true := by
  unfold ensureKey
  cases h : alistLookup m k with
  | none => simp [alistLookup_alistSet_self]
  | some w => simp [h]

theorem ensureKey_preserves (m : MemFileDict) (k k' : String) (v : MVal)
    (h : (alistLookup m k').isSome = true) :
    (alistLookup (ensureKey m k v) k').isSome = true := by
  unfold ensureKey
  cases hk : alistLookup m k with
  | some w => exact h
  | none =>
      by_cases he : k' = k
      · subst he
        simp [alistLookup_alistSet_self]
      · rw [alistLookup_alistSet_ne _ _ _ _ he]
        exact h

/-- C10 (amended): every dict returned by job_agent10's
`load_agent_memory` — loaded from a file in an older format, parsed intact,
or built from defaults — contains the seven top-level keys the stuck
detector, decision engine and recorder index; job_agent9improved's loader
guarantees only five of them, never introducing "action_sequences" or
"stuck_detection". -/
theorem C10_loader_key_presence (file : Option (Option MemFileDict)) :
    (∀ k ∈ ["action_history", "page_patterns", "success_sequences",
            "failure_patterns", "element_selectors", "action_sequences",
            "stuck_detection"],
      (alistLookup (JA10.load_agent_memory file) k).isSome = true) ∧
    (∀ k ∈ ["action_history", "page_patterns", "success_sequences",
            "failure_patterns", "element_selectors"],
      (alistLookup (JA9.load_agent_memory file) k).isSome = true) := by
  constructor
  · intro k hk
    rcases file with _ | _ | m
    · fin_cases hk <;> decide
    · fin_cases hk <;> decide
    · simp only [JA10.load_agent_memory]
      fin_cases hk
      · exact ensureKey_preserves _ _ _ _ (ensureKey_isSome_self _ _ _)
      · exact ensureKey_isSome_self _ _ _
      · exact ensureKey_preserves _ _ _ _ (ensureKey_preserves _ _ _ _
          (ensureKey_preserves _ _ _ _ (ensureKey_isSome_self _ _ _)))
      · exact ensureKey_preserves _ _ _ _ (ensureKey_preserves _ _ _ _
          (ensureKey_isSome_self _ _ _))
      · exact ensureKey_preserves _ _ _ _ (ensureKey_preserves _ _ _ _
          (ensureKey_preserves _ _ _ _ (ensureKey_preserves _ _ _ _
            (ensureKey_isSome_self _ _ _))))
      · exact ensureKey_preserves _ _ _ _ (ensureKey_preserves _ _ _ _
          (ensureKey_preserves _ _ _ _ (ensureKey_preserves _ _ _ _
            (ensureKey_preserves _ _ _ _ (ensureKey_preserves _ _ _ _
              (ensureKey_isSome_self _ _ _))))))
      · exact ensureKey_preserves _ _ _ _ (ensureKey_preserves _ _ _ _
          (ensureKey_preserves _ _ _ _ (ensureKey_preserves _ _ _ _
            (ensureKey_preserves _ _ _ _ (ensureKey_isSome_self _ _ _)))))
  · intro k hk
    rcases file with _ | _ | m
    · fin_cases hk <;> decide
    · fin_cases hk <;> decide
    · simp only [JA9.load_agent_memory]
      fin_cases hk
      · exact ensureKey_preserves _ _ _ _ (ensureKey_preserves _ _ _ _
          (ensureKey_preserves _ _ _ _ (ensureKey_preserves _ _ _ _
            (ensureKey_isSome_self _ _ _))))
      · exact ensureKey_preserves _ _ _ _ (ensureKey_preserves _ _ _ _
          (ensureKey_preserves _ _ _ _ (ensureKey_isSome_self _ _ _)))
      · exact ensureKey_preserves _ _ _ _ (ensureKey_preserves _ _ _ _
          (ensureKey_isSome_self _ _ _))
      · exact ensureKey_preserves _ _ _ _ (ensureKey_isSome_self _ _ _)
      · exact ensureKey_preserves _ _ _ _ (ensureKey_preserves _ _ _ _
          (ensureKey_preserves _ _ _ _ (ensureKey_preserves _ _ _ _
            (ensureKey_preserves _ _ _ _ (ensureKey_isSome_self _ _ _)))))

/-- C10 witness: the migrated empty dict contains "stuck_detection". -/
theorem C10_loader_key_presence_witness :
    (alistLookup (JA10.load_agent_memory (some (some [])))
      "stuck_detection").isSome = true :=
  (C10_loader_key_presence (some (some []))).1 "stuck_detection" (by decide)

/-- C10 counterexample: job_agent9improved's loader (cited by the claim)
yields a dict without "stuck_detection" and "action_sequences". -/
theorem C10_loader_counterexample :
    alistLookup (JA9.load_agent_memory none) "stuck_detection" = none ∧
    alistLookup (JA9.load_agent_memory none) "action_sequences" = none :=
  ⟨rfl, rfl⟩

end JobAgent
